import Mathlib

/-!
Verification of the playlist generator in get-playlists.py: the stream
health-check coordinator and the three playlist encoders (XSPF, M3U, PLS).
Python dictionaries with optional keys are modelled by nested options:
value none means the key is absent, some none means the key is present and
bound to the Python value None, some (some v) means the key holds v.
-/

namespace TIBR

/-- Field of a Python dict that may be absent or bound to None:
none means key absent, some none means value None, some (some v) means value v. -/
abbrev PyField (α : Type) := Option (Option α)

/-- Mount record of a station, from the fields the program reads:
mount.url, mount.format, and the optional mount.bitrate. -/
structure Mount where
  url : String
  format : String
  bitrate : PyField Nat
  deriving Repr, DecidableEq

/-- Station record, from the fields the program reads: name, mounts,
and the optional description, url, genre and art. -/
structure Station where
  name : String
  description : PyField String
  url : PyField String
  genre : PyField String
  art : PyField String
  mounts : List Mount
  deriving Repr, DecidableEq

/-- Detail component of a health result: the HTTP status of a successful
probe, or the string rendering of an exception or note. -/
inductive HInfo where
  | status (n : Nat)
  | msg (s : String)
  deriving Repr, DecidableEq

/-- The Python dict health_results: stream URL to (bool, detail), modelled as
an association list with unique keys in insertion order. -/
abbrev HealthMap := List (String × (Bool × HInfo))

/-- Python d.get(k, default). -/
def dictGet (m : HealthMap) (k : String) (d : Bool × HInfo) : Bool × HInfo :=
  match m with
  | [] => d
  | (k', v) :: rest => if k' = k then v else dictGet rest k d

/-- Python d[k] = v: overwrite in place if the key exists, else append. -/
def dictSet (m : HealthMap) (k : String) (v : Bool × HInfo) : HealthMap :=
  match m with
  | [] => [(k, v)]
  | (k', v') :: rest =>
      if k' = k then (k, v) :: rest else (k', v') :: dictSet rest k v

/-- Python k in d, returning the stored value when present. -/
def dictLookup (m : HealthMap) (k : String) : Option (Bool × HInfo) :=
  match m with
  | [] => none
  | (k', v) :: rest => if k' = k then some v else dictLookup rest k

/-- The health test every encoder performs:
health_results.get(url, (False, "Not checked"))[0]. -/
def isHealthy (h : HealthMap) (url : String) : Bool :=
  (dictGet h url (false, .msg "Not checked")).1

/-- Behaviour of the network at one URL during one probe: either the GET and
the initial 1024-byte body read complete and yield a status code, or some
exception is raised whose str rendering is the given message. -/
inductive NetOutcome where
  | ok (status : Nat)
  | exc (msg : String)
  deriving Repr, DecidableEq

/-- StreamHealthCheck.check_stream: issue the GET, read the first chunk, and
return (url, True, status); on any exception return (url, False, str(e)).
The ambient network behaviour is passed as the function net. -/
def check_stream (net : String → NetOutcome) (url : String) :
    String × Bool × HInfo :=
  match net url with
  | .ok s => (url, true, .status s)
  | .exc m => (url, false, .msg m)

/-- StreamHealthCheck.check_streams: a for loop that awaits check_stream on
each URL in turn and stores results[url] = (ok, detail).  Because each
iteration awaits the probe to completion before the next one starts, the
wall-clock time of the loop is the sum of the individual probe durations;
the function dur gives the duration of the probe at each URL, and the
second component of the result is the total elapsed time.  The progress
display is pure presentation and is not modelled. -/
def check_streams (net : String → NetOutcome) (dur : String → Nat)
    (urls : List String) : HealthMap × Nat :=
  urls.foldl
    (fun acc url =>
      (dictSet acc.1 (check_stream net url).1
        ((check_stream net url).2.1, (check_stream net url).2.2),
       acc.2 + dur url))
    ([], 0)

/-- The stream_urls list built in main: every url of a mount whose format is
mp3, in station order then mount order. -/
def stream_urls (station_data : List Station) : List String :=
  station_data.flatMap
    (fun station => (station.mounts.filter (fun m => m.format == "mp3")).map
      (fun m => m.url))

/-- The no-health-check branch of main: a dict mapping every stream URL to
(True, "Health check skipped"). -/
def skippedHealthMap (station_data : List Station) : HealthMap :=
  (stream_urls station_data).foldl
    (fun m url => dictSet m url (true, .msg "Health check skipped")) []

/-- Python str applied to the value of an optional field: None renders as
the word None, a number renders in decimal. -/
def pyStrNat (v : Option Nat) : String :=
  match v with
  | none => "None"
  | some n => toString n

/-- The bitrate_info string of create_m3u_playlist: the suffix is produced
whenever the key bitrate is present in the mount dict, rendering its value
with str; an absent key gives the empty string. -/
def bitrate_info (m : Mount) : String :=
  match m.bitrate with
  | none => ""
  | some b => " - " ++ pyStrNat b ++ "kbps"

/-- create_m3u_playlist: header line, then for each station and each of its
mounts in order, if the format is mp3 and the health lookup succeeds, an
EXTINF line and the URL line. -/
def create_m3u_playlist (station_data : List Station)
    (health_results : HealthMap) : String :=
  station_data.foldl
    (fun acc station =>
      station.mounts.foldl
        (fun acc mount =>
          if mount.format = "mp3" then
            if !(isHealthy health_results mount.url) then acc
            else
              acc ++ ("#EXTINF:-1," ++ station.name ++ bitrate_info mount
                ++ "\n") ++ (mount.url ++ "\n")
          else acc)
        acc)
    "#EXTM3U\n"

/-- create_pls_playlist: header, then for each healthy mp3 mount a block of
three lines numbered by the running valid_entries counter, then the
NumberOfEntries and Version footer. -/
def create_pls_playlist (station_data : List Station)
    (health_results : HealthMap) : String :=
  let r :=
    station_data.foldl
      (fun (acc : String × Nat) station =>
        station.mounts.foldl
          (fun (acc : String × Nat) mount =>
            if mount.format = "mp3" then
              if !(isHealthy health_results mount.url) then acc
              else
                (acc.1
                  ++ ("File" ++ toString (acc.2 + 1) ++ "=" ++ mount.url ++ "\n")
                  ++ ("Title" ++ toString (acc.2 + 1) ++ "=" ++ station.name
                      ++ "\n")
                  ++ ("Length" ++ toString (acc.2 + 1) ++ "=-1\n"), acc.2 + 1)
            else acc)
          acc)
      ("[playlist]\n", 0)
  r.1 ++ ("NumberOfEntries=" ++ toString r.2 ++ "\n") ++ "Version=2\n"

/-- Node of an XML document, as built by ElementTree in
create_xspf_playlist: an element with tag, attributes in insertion order and
child nodes, or a text node. -/
inductive XmlNode where
  | elem (tag : String) (attrs : List (String × String)) (children : List XmlNode)
  | text (s : String)

/-- Character escaping performed by minidom when writing text and attribute
values: the ampersand, angle brackets and double quote become entities. -/
def escapeData (s : String) : String :=
  s.data.foldl
    (fun acc c =>
      if c = '&' then acc ++ "&amp;"
      else if c = '<' then acc ++ "&lt;"
      else if c = '"' then acc ++ "&quot;"
      else if c = '>' then acc ++ "&gt;"
      else acc.push c)
    ""

/-- Attribute rendering of minidom writexml, in stored order. -/
def ppAttrs (attrs : List (String × String)) : String :=
  attrs.foldl
    (fun acc kv => acc ++ " " ++ kv.1 ++ "=\"" ++ escapeData kv.2 ++ "\"")
    ""

mutual
/-- minidom writexml with addindent two spaces: an element with no children
is self-closing, an element whose only child is a text node is written
inline, and otherwise the children are written indented on their own
lines. -/
def ppNode (ind : String) : XmlNode → String
  | .text s => ind ++ escapeData s ++ "\n"
  | .elem tag attrs children =>
      match children with
      | [] => ind ++ "<" ++ tag ++ ppAttrs attrs ++ "/>\n"
      | [.text s] =>
          ind ++ "<" ++ tag ++ ppAttrs attrs ++ ">" ++ escapeData s
            ++ "</" ++ tag ++ ">\n"
      | _ =>
          ind ++ "<" ++ tag ++ ppAttrs attrs ++ ">\n"
            ++ ppNodes (ind ++ "  ") children
            ++ ind ++ "</" ++ tag ++ ">\n"

/-- Children of an element, each pretty-printed in turn. -/
def ppNodes (ind : String) : List XmlNode → String
  | [] => ""
  | n :: rest => ppNode ind n ++ ppNodes ind rest
end

/-- Serialization pipeline of create_xspf_playlist: tostring followed by
minidom parseString and toprettyxml with two-space indent, which emits the
XML declaration line and then the pretty-printed root element. -/
def toprettyxml (root : XmlNode) : String :=
  "<?xml version=\"1.0\" ?>\n" ++ ppNode "" root

/-- Text assigned to an ElementTree element, as it survives the
tostring and parseString round trip: the Python value None and the empty
string leave no text node, any other string becomes one text node. -/
def textChild (t : Option String) : List XmlNode :=
  match t with
  | none => []
  | some s => if s = "" then [] else [.text s]

/-- Python station.get(key, default) for a string field: an absent key
yields the default, a key bound to None yields None. -/
def pyGetStr (f : PyField String) (d : String) : Option String :=
  match f with
  | none => some d
  | some none => none
  | some (some s) => some s

/-- Python truthiness test: key in station and station A non-empty string
value passes, an absent key, None and the empty string fail. -/
def truthyStr (f : PyField String) : Option String :=
  match f with
  | some (some s) => if s = "" then none else some s
  | _ => none

/-- One track element of create_xspf_playlist: location, title, creator,
the description and homepage with empty-string defaults, then the genre
meta element and the image element only when the station field is truthy. -/
def xspfTrack (station : Station) (mount : Mount) : XmlNode :=
  .elem "track" []
    ([.elem "location" [] (textChild (some mount.url)),
      .elem "title" [] (textChild (some station.name)),
      .elem "creator" [] (textChild (some "The Indie Beat Radio")),
      .elem "annotation" [] (textChild (pyGetStr station.description "")),
      .elem "info" [] (textChild (pyGetStr station.url ""))]
      ++ (match truthyStr station.genre with
          | some g => [.elem "meta" [("rel", "genre")] (textChild (some g))]
          | none => [])
      ++ (match truthyStr station.art with
          | some a => [.elem "image" [] (textChild (some a))]
          | none => []))

/-- The trackList children built by the nested loop of
create_xspf_playlist: one track per healthy mp3 mount, appended in station
order then mount order. -/
def xspfTracks (station_data : List Station) (health_results : HealthMap) :
    List XmlNode :=
  station_data.foldl
    (fun acc station =>
      station.mounts.foldl
        (fun acc mount =>
          if mount.format = "mp3" then
            if !(isHealthy health_results mount.url) then acc
            else acc ++ [xspfTrack station mount]
          else acc)
        acc)
    []

/-- The playlist element of create_xspf_playlist: version and namespace
attributes, the constant title, the date element holding the current UTC
time in ISO format, and the trackList.  The clock reading is the explicit
argument now. -/
def xspfTree (station_data : List Station) (health_results : HealthMap)
    (now : String) : XmlNode :=
  .elem "playlist" [("version", "1"), ("xmlns", "http://xspf.org/ns/0/")]
    [.elem "title" [] (textChild (some "The Indie Beat Radio Streams")),
     .elem "date" [] (textChild (some now)),
     .elem "trackList" [] (xspfTracks station_data health_results)]

/-- create_xspf_playlist: build the element tree and pretty-print it.  The
call datetime.now reads the ambient clock; its ISO rendering is passed here
as the argument now. -/
def create_xspf_playlist (station_data : List Station)
    (health_results : HealthMap) (now : String) : String :=
  toprettyxml (xspfTree station_data health_results now)

/-- The candidates every encoder emits: stations in their given order,
mounts in their given order within a station, keeping a mount exactly when
its format is mp3 and the health lookup of its url reports true, each
paired with its owning station. -/
def healthyMounts (station_data : List Station) (h : HealthMap) :
    List (Station × Mount) :=
  station_data.flatMap
    (fun st =>
      (st.mounts.filter (fun m => m.format == "mp3" && isHealthy h m.url)).map
        (fun m => (st, m)))

/-- The two M3U lines of one healthy candidate. -/
def m3uEntry (p : Station × Mount) : String :=
  "#EXTINF:-1," ++ p.1.name ++ bitrate_info p.2 ++ "\n" ++ p.2.url ++ "\n"

/-- The three PLS lines of one healthy candidate at entry number n. -/
def plsEntry (n : Nat) (p : Station × Mount) : String :=
  "File" ++ toString n ++ "=" ++ p.2.url ++ "\n"
    ++ ("Title" ++ toString n ++ "=" ++ p.1.name ++ "\n")
    ++ ("Length" ++ toString n ++ "=-1\n")

/-- Concatenation of a list of strings in order. -/
def strConcat : List String → String
  | [] => ""
  | s :: rest => s ++ strConcat rest

/-- Pairing of consecutive indices starting at k with the list elements. -/
def indexedFrom {α : Type} (k : Nat) : List α → List (Nat × α)
  | [] => []
  | x :: l => (k, x) :: indexedFrom (k + 1) l

/-- Deletion of the mounts carrying the given url from one station. -/
def stripUrl (url : String) (st : Station) : Station :=
  { st with mounts := st.mounts.filter (fun m => !(m.url == url)) }

/-- Deletion of every mount carrying the given url, station records kept. -/
def removeMountsWithUrl (station_data : List Station) (url : String) :
    List Station :=
  station_data.map (stripUrl url)

/-- A station with one mp3 mount and every optional station field absent. -/
def singleMountStation (name url : String) (b : PyField Nat) : Station :=
  { name := name, description := none, url := none, genre := none,
    art := none,
    mounts := [{ url := url, format := "mp3", bitrate := b }] }

/-- Station Alpha of the specification scenario: one mp3 mount with a known
bitrate of 128. -/
def stationAlpha : Station :=
  { name := "Alpha", description := none, url := none, genre := none,
    art := none,
    mounts := [{ url := "http://a/1", format := "mp3",
                 bitrate := some (some 128) }] }

/-- Station Beta of the specification scenario: one mp3 mount whose bitrate
key is present but bound to None. -/
def stationBeta : Station :=
  { name := "Beta", description := none, url := none, genre := none,
    art := none,
    mounts := [{ url := "http://a/2", format := "mp3",
                 bitrate := some none }] }

/-- The two stations of the specification scenario. -/
def scenarioStations : List Station := [stationAlpha, stationBeta]

/-- The scenario health map: the first stream healthy, the second failed. -/
def scenarioHealth : HealthMap :=
  [("http://a/1", (true, .status 200)), ("http://a/2", (false, .msg "timeout"))]

/-- A health map in which both scenario streams are healthy probe results. -/
def healthABoth : HealthMap :=
  [("http://a/1", (true, .status 200)), ("http://a/2", (true, .status 200))]

/-- A health map holding only the first scenario stream. -/
def healthAFirst : HealthMap := [("http://a/1", (true, .status 200))]

/-- Station Delta: every optional field absent, one mp3 mount with no
bitrate key. -/
def stationDelta : Station :=
  { name := "Delta", description := none, url := none, genre := none,
    art := none,
    mounts := [{ url := "http://d/1", format := "mp3", bitrate := none }] }

/-- A health map in which the Delta stream is a healthy probe result. -/
def healthDelta : HealthMap := [("http://d/1", (true, .status 200))]

/-- Network behaviour in which every connection attempt fails with an
unreachable-host error message. -/
def netDown : String → NetOutcome := fun _ => .exc "Cannot connect to host"

/-- Network behaviour in which every probe raises an exception whose string
rendering is empty, as a bare TimeoutError renders in Python. -/
def netExcEmpty : String → NetOutcome := fun _ => .exc ""

/-- Network behaviour in which every request completes and the server
answers with status 404. -/
def netStatus404 : String → NetOutcome := fun _ => .ok 404

/-- Probe durations of five seconds, the default per-probe timeout. -/
def durFive : String → Nat := fun _ => 5

/-- The two scenario URLs, as passed to the health-check coordinator. -/
def urlsTwo : List String := ["http://a/1", "http://a/2"]

/-- A sample clock reading, as datetime.now(UTC).isoformat() renders it. -/
def isoA : String := "2025-06-01T12:00:00+00:00"

/-- A later sample clock reading. -/
def isoB : String := "2025-06-01T12:00:01+00:00"

/-- The pair stored by the coordinator for one URL: the flag and the detail
of its probe. -/
def probeEntry (net : String → NetOutcome) (u : String) : Bool × HInfo :=
  ((check_stream net u).2.1, (check_stream net u).2.2)

/-- Folding of two adjacent pieces of a right-associated concatenation. -/
theorem append_fold (a b ab x : String) (hab : a ++ b = ab) :
    a ++ (b ++ x) = ab ++ x := by
  rw [← hab, ← String.append_assoc]

/-- Concatenation distributes over list append. -/
theorem strConcat_append (l1 l2 : List String) :
    strConcat (l1 ++ l2) = strConcat l1 ++ strConcat l2 := by
  induction l1 with
  | nil => simp [strConcat]
  | cons s l ih => simp [strConcat, ih, String.append_assoc]

/-- Indexing distributes over list append, shifting the second start. -/
theorem indexedFrom_append {α : Type} (k : Nat) (l1 l2 : List α) :
    indexedFrom k (l1 ++ l2)
      = indexedFrom k l1 ++ indexedFrom (k + l1.length) l2 := by
  induction l1 generalizing k with
  | nil => simp [indexedFrom]
  | cons x l ih =>
      have h2 : k + 1 + l.length = k + (l.length + 1) := by omega
      calc indexedFrom k ((x :: l) ++ l2)
          = (k, x) :: indexedFrom (k + 1) (l ++ l2) := rfl
        _ = (k, x) :: (indexedFrom (k + 1) l
              ++ indexedFrom (k + 1 + l.length) l2) := by rw [ih]
        _ = indexedFrom k (x :: l) ++ indexedFrom (k + (x :: l).length) l2 := by
              rw [h2]
              rfl

/-- Indexing commutes with mapping the elements. -/
theorem indexedFrom_map {α β : Type} (f : α → β) (k : Nat) (l : List α) :
    indexedFrom k (l.map f) = (indexedFrom k l).map (fun q => (q.1, f q.2)) := by
  induction l generalizing k with
  | nil => simp [indexedFrom]
  | cons x l ih => simp [indexedFrom, ih]

/-- dictGet is dictLookup with a default. -/
theorem dictGet_eq_lookup (m : HealthMap) (k : String) (d : Bool × HInfo) :
    dictGet m k d = (dictLookup m k).getD d := by
  induction m with
  | nil => rfl
  | cons kv rest ih =>
      obtain ⟨k', v⟩ := kv
      by_cases h : k' = k <;> simp [dictGet, dictLookup, h, ih]

/-- Lookup after a dict assignment. -/
theorem dictLookup_dictSet (m : HealthMap) (k : String) (v : Bool × HInfo)
    (u : String) :
    dictLookup (dictSet m k v) u = if u = k then some v else dictLookup m u := by
  induction m with
  | nil =>
      by_cases h : u = k
      · simp [dictSet, dictLookup, h]
      · have h' : ¬ k = u := fun hh => h hh.symm
        simp [dictSet, dictLookup, h, h']
  | cons kv rest ih =>
      obtain ⟨k', v'⟩ := kv
      by_cases h1 : k' = k
      · subst h1
        by_cases h2 : u = k'
        · simp [dictSet, dictLookup, h2]
        · have h2' : ¬ k' = u := fun hh => h2 hh.symm
          simp [dictSet, dictLookup, h2, h2']
      · by_cases h2 : u = k'
        · have h3 : ¬ u = k := fun hh => h1 (h2.symm.trans hh)
          have h4 : k' = u := h2.symm
          simp [dictSet, dictLookup, h1, h3, h4]
        · have h5 : ¬ k' = u := fun hh => h2 hh.symm
          simp [dictSet, dictLookup, h1, h2, h5, ih]

/-- Lookup in a dict built by assigning f x for every x of a list: a key of
the list holds the value of f there no matter how often it occurs. -/
theorem dictLookup_foldl_dictSet (f : String → Bool × HInfo) (l : List String)
    (m0 : HealthMap) (u : String) :
    dictLookup (l.foldl (fun m x => dictSet m x (f x)) m0) u
      = if u ∈ l then some (f u) else dictLookup m0 u := by
  induction l generalizing m0 with
  | nil => simp
  | cons x l ih =>
      simp only [List.foldl_cons, ih, List.mem_cons]
      by_cases hx : u ∈ l
      · simp [hx]
      · by_cases hu : u = x
        · subst hu
          simp [hx, dictLookup_dictSet]
        · simp [hx, hu, dictLookup_dictSet]

/-- check_stream always returns its URL in the first component. -/
theorem check_stream_fst (net : String → NetOutcome) (url : String) :
    (check_stream net url).1 = url := by
  unfold check_stream
  cases net url <;> rfl

/-- Unfolding of the coordinator loop: the result map assigns every URL its
probe outcome, and the elapsed time accumulates the sum of the durations. -/
theorem check_streams_foldl (net : String → NetOutcome) (dur : String → Nat)
    (urls : List String) (m0 : HealthMap) (t0 : Nat) :
    urls.foldl
      (fun acc url =>
        (dictSet acc.1 (check_stream net url).1
          ((check_stream net url).2.1, (check_stream net url).2.2),
         acc.2 + dur url))
      (m0, t0)
    = (urls.foldl (fun m u => dictSet m u (probeEntry net u)) m0,
       t0 + (urls.map dur).sum) := by
  induction urls generalizing m0 t0 with
  | nil => simp
  | cons u l ih =>
      simp only [List.foldl_cons, List.map_cons, List.sum_cons]
      rw [check_stream_fst]
      rw [show ((check_stream net u).2.1, (check_stream net u).2.2)
            = probeEntry net u from rfl]
      rw [ih]
      simp [Nat.add_assoc]

/-- The inner loop of create_m3u_playlist over the mounts of one station
appends exactly the entries of its healthy mp3 mounts. -/
theorem m3u_mounts (h : HealthMap) (st : Station) (mounts : List Mount)
    (acc : String) :
    mounts.foldl
      (fun acc mount =>
        if mount.format = "mp3" then
          if !(isHealthy h mount.url) then acc
          else
            acc ++ ("#EXTINF:-1," ++ st.name ++ bitrate_info mount ++ "\n")
              ++ (mount.url ++ "\n")
        else acc)
      acc
    = acc ++ strConcat
        ((mounts.filter (fun m => m.format == "mp3" && isHealthy h m.url)).map
          (fun m => m3uEntry (st, m))) := by
  induction mounts generalizing acc with
  | nil => simp [strConcat]
  | cons m l ih =>
      rw [List.foldl_cons]
      by_cases hf : m.format = "mp3"
      · cases hh : isHealthy h m.url with
        | true =>
            rw [if_pos hf, if_neg (by simp [hh]), ih]
            simp [List.filter_cons, hf, hh, strConcat, m3uEntry,
              String.append_assoc]
        | false =>
            rw [if_pos hf, if_pos (by simp [hh]), ih]
            simp [List.filter_cons, hf, hh]
      · rw [if_neg hf, ih]
        simp [List.filter_cons, hf]

/-- The outer loop of create_m3u_playlist appends the entries of all
healthy mp3 candidates in order. -/
theorem m3u_stations (h : HealthMap) (sd : List Station) (acc : String) :
    sd.foldl
      (fun acc station =>
        station.mounts.foldl
          (fun acc mount =>
            if mount.format = "mp3" then
              if !(isHealthy h mount.url) then acc
              else
                acc ++ ("#EXTINF:-1," ++ station.name ++ bitrate_info mount
                  ++ "\n") ++ (mount.url ++ "\n")
            else acc)
          acc)
      acc
    = acc ++ strConcat ((healthyMounts sd h).map m3uEntry) := by
  induction sd generalizing acc with
  | nil => simp [healthyMounts, strConcat]
  | cons st l ih =>
      rw [List.foldl_cons, m3u_mounts h st st.mounts acc, ih]
      simp [healthyMounts, strConcat_append, String.append_assoc,
        Function.comp_def]

/-- create_m3u_playlist is the header followed by the concatenated entries
of the healthy mp3 candidates in candidate order. -/
theorem m3u_structure (sd : List Station) (h : HealthMap) :
    create_m3u_playlist sd h
      = "#EXTM3U\n" ++ strConcat ((healthyMounts sd h).map m3uEntry) := by
  unfold create_m3u_playlist
  exact m3u_stations h sd "#EXTM3U\n"

/-- The inner loop of create_pls_playlist over one station: it appends the
blocks of the healthy mp3 mounts numbered consecutively from one past the
incoming counter, and advances the counter by their number. -/
theorem pls_mounts (h : HealthMap) (st : Station) (mounts : List Mount)
    (s : String) (k : Nat) :
    mounts.foldl
      (fun (acc : String × Nat) mount =>
        if mount.format = "mp3" then
          if !(isHealthy h mount.url) then acc
          else
            (acc.1
              ++ ("File" ++ toString (acc.2 + 1) ++ "=" ++ mount.url ++ "\n")
              ++ ("Title" ++ toString (acc.2 + 1) ++ "=" ++ st.name ++ "\n")
              ++ ("Length" ++ toString (acc.2 + 1) ++ "=-1\n"), acc.2 + 1)
        else acc)
      (s, k)
    = (s ++ strConcat
          ((indexedFrom (k + 1)
              ((mounts.filter
                  (fun m => m.format == "mp3" && isHealthy h m.url)).map
                (fun m => (st, m)))).map
            (fun q => plsEntry q.1 q.2)),
       k + (mounts.filter
              (fun m => m.format == "mp3" && isHealthy h m.url)).length) := by
  induction mounts generalizing s k with
  | nil => simp [strConcat, indexedFrom]
  | cons m l ih =>
      rw [List.foldl_cons]
      by_cases hf : m.format = "mp3"
      · cases hh : isHealthy h m.url with
        | true =>
            rw [if_pos hf, if_neg (by simp [hh]), ih]
            have hfilter :
                List.filter (fun m => m.format == "mp3" && isHealthy h m.url)
                    (m :: l)
                  = m :: List.filter
                      (fun m => m.format == "mp3" && isHealthy h m.url) l := by
              simp [List.filter_cons, hf, hh]
            rw [hfilter]
            simp only [List.map_cons, indexedFrom, strConcat,
              List.length_cons, Prod.mk.injEq]
            constructor
            · simp [plsEntry, String.append_assoc]
            · omega
        | false =>
            rw [if_pos hf, if_pos (by simp [hh]), ih]
            simp [List.filter_cons, hf, hh]
      · rw [if_neg hf, ih]
        simp [List.filter_cons, hf]

/-- The outer loop of create_pls_playlist: all healthy mp3 candidates in
order, numbered consecutively, with the counter ending at their count. -/
theorem pls_stations (h : HealthMap) (sd : List Station) (s : String)
    (k : Nat) :
    sd.foldl
      (fun (acc : String × Nat) station =>
        station.mounts.foldl
          (fun (acc : String × Nat) mount =>
            if mount.format = "mp3" then
              if !(isHealthy h mount.url) then acc
              else
                (acc.1
                  ++ ("File" ++ toString (acc.2 + 1) ++ "=" ++ mount.url
                      ++ "\n")
                  ++ ("Title" ++ toString (acc.2 + 1) ++ "=" ++ station.name
                      ++ "\n")
                  ++ ("Length" ++ toString (acc.2 + 1) ++ "=-1\n"), acc.2 + 1)
            else acc)
          acc)
      (s, k)
    = (s ++ strConcat
          ((indexedFrom (k + 1) (healthyMounts sd h)).map
            (fun q => plsEntry q.1 q.2)),
       k + (healthyMounts sd h).length) := by
  induction sd generalizing s k with
  | nil => simp [healthyMounts, strConcat, indexedFrom]
  | cons st l ih =>
      rw [List.foldl_cons, pls_mounts h st st.mounts s k, ih]
      simp only [healthyMounts, List.flatMap_cons, indexedFrom_append,
        List.map_append, strConcat_append, List.length_append,
        List.length_map, Prod.mk.injEq]
      constructor
      · rw [Nat.add_right_comm k 1
          ((st.mounts.filter
              (fun m => m.format == "mp3" && isHealthy h m.url)).length)]
        simp [String.append_assoc]
      · omega

/-- create_pls_playlist is the header, the blocks of the healthy mp3
candidates numbered consecutively from 1, and the footer reporting their
count and the version. -/
theorem pls_structure (sd : List Station) (h : HealthMap) :
    create_pls_playlist sd h
      = "[playlist]\n"
        ++ strConcat
            ((indexedFrom 1 (healthyMounts sd h)).map
              (fun q => plsEntry q.1 q.2))
        ++ ("NumberOfEntries=" ++ toString (healthyMounts sd h).length ++ "\n")
        ++ "Version=2\n" := by
  unfold create_pls_playlist
  rw [pls_stations h sd "[playlist]\n" 0]
  simp [String.append_assoc]

/-- The inner loop of create_xspf_playlist appends one track per healthy
mp3 mount of the station. -/
theorem xspf_mounts (h : HealthMap) (st : Station) (mounts : List Mount)
    (acc : List XmlNode) :
    mounts.foldl
      (fun acc mount =>
        if mount.format = "mp3" then
          if !(isHealthy h mount.url) then acc
          else acc ++ [xspfTrack st mount]
        else acc)
      acc
    = acc ++ ((mounts.filter
          (fun m => m.format == "mp3" && isHealthy h m.url)).map
        (fun m => xspfTrack st m)) := by
  induction mounts generalizing acc with
  | nil => simp
  | cons m l ih =>
      rw [List.foldl_cons]
      by_cases hf : m.format = "mp3"
      · cases hh : isHealthy h m.url with
        | true =>
            rw [if_pos hf, if_neg (by simp [hh]), ih]
            simp [List.filter_cons, hf, hh]
        | false =>
            rw [if_pos hf, if_pos (by simp [hh]), ih]
            simp [List.filter_cons, hf, hh]
      · rw [if_neg hf, ih]
        simp [List.filter_cons, hf]

/-- The trackList of create_xspf_playlist holds one track per healthy mp3
candidate, in candidate order. -/
theorem xspfTracks_structure (sd : List Station) (h : HealthMap) :
    xspfTracks sd h = (healthyMounts sd h).map (fun p => xspfTrack p.1 p.2) := by
  unfold xspfTracks
  suffices hgen : ∀ (l : List Station) (acc : List XmlNode),
      l.foldl
        (fun acc station =>
          station.mounts.foldl
            (fun acc mount =>
              if mount.format = "mp3" then
                if !(isHealthy h mount.url) then acc
                else acc ++ [xspfTrack station mount]
              else acc)
            acc)
        acc
      = acc ++ (healthyMounts l h).map (fun p => xspfTrack p.1 p.2) by
    simpa using hgen sd []
  intro l
  induction l with
  | nil => simp [healthyMounts]
  | cons st l2 ih =>
      intro acc
      rw [List.foldl_cons, xspf_mounts h st st.mounts acc, ih]
      simp [healthyMounts, Function.comp]

/-- The url of an mp3 mount of a listed station is in the stream_urls
list. -/
theorem mem_stream_urls (sd : List Station) (st : Station) (m : Mount)
    (hst : st ∈ sd) (hm : m ∈ st.mounts) (hf : m.format = "mp3") :
    m.url ∈ stream_urls sd := by
  unfold stream_urls
  refine List.mem_flatMap.mpr ⟨st, hst, ?_⟩
  refine List.mem_map.mpr ⟨m, ?_, rfl⟩
  exact List.mem_filter.mpr ⟨hm, by simp [hf]⟩

/-- In the skipped map every stream URL reads healthy. -/
theorem skipped_isHealthy (sd : List Station) (u : String)
    (hu : u ∈ stream_urls sd) :
    isHealthy (skippedHealthMap sd) u = true := by
  unfold isHealthy skippedHealthMap
  rw [dictGet_eq_lookup]
  rw [dictLookup_foldl_dictSet (fun _ => (true, .msg "Health check skipped"))]
  simp [hu]

/-- Two health maps that agree on every stream URL select the same
candidates. -/
theorem healthyMounts_congr (h1 h2 : HealthMap) :
    ∀ sd : List Station,
      (∀ u ∈ stream_urls sd, isHealthy h1 u = isHealthy h2 u) →
        healthyMounts sd h1 = healthyMounts sd h2 := by
  intro sd
  induction sd with
  | nil => intro _; rfl
  | cons st l ih =>
      intro hagree
      have hurlsplit : stream_urls (st :: l)
          = (st.mounts.filter (fun m => m.format == "mp3")).map (fun m => m.url)
            ++ stream_urls l := by
        simp [stream_urls, List.flatMap_cons]
      have hst : ∀ m ∈ st.mounts,
          (m.format == "mp3" && isHealthy h1 m.url)
            = (m.format == "mp3" && isHealthy h2 m.url) := by
        intro m hm
        by_cases hf : m.format = "mp3"
        · have hmem : m.url ∈ stream_urls (st :: l) :=
            mem_stream_urls (st :: l) st m (by simp) hm hf
          rw [hagree m.url hmem]
        · have hfb : (m.format == "mp3") = false := by simp [hf]
          rw [hfb]
          simp
      have h1eq :
          List.filter (fun m => m.format == "mp3" && isHealthy h1 m.url)
              st.mounts
            = List.filter (fun m => m.format == "mp3" && isHealthy h2 m.url)
              st.mounts :=
        List.filter_congr hst
      have hrest : ∀ u ∈ stream_urls l, isHealthy h1 u = isHealthy h2 u := by
        intro u hu
        apply hagree
        rw [hurlsplit]
        exact List.mem_append_right _ hu
      have hcons : ∀ hh : HealthMap, healthyMounts (st :: l) hh
          = (st.mounts.filter
              (fun m => m.format == "mp3" && isHealthy hh m.url)).map
              (fun m => (st, m))
            ++ healthyMounts l hh := by
        intro hh
        simp [healthyMounts, List.flatMap_cons]
      rw [hcons h1, hcons h2, h1eq, ih hrest]

/-- Entries read no mount list, so stripping a url from the station leaves
the M3U entry unchanged. -/
theorem m3uEntry_strip (url : String) (p : Station × Mount) :
    m3uEntry (stripUrl url p.1, p.2) = m3uEntry p := rfl

/-- Entries read no mount list, so stripping a url from the station leaves
the PLS block unchanged. -/
theorem plsEntry_strip (url : String) (n : Nat) (p : Station × Mount) :
    plsEntry n (stripUrl url p.1, p.2) = plsEntry n p := rfl

/-- Tracks read no mount list, so stripping a url from the station leaves
the XSPF track unchanged. -/
theorem xspfTrack_strip (url : String) (p : Station × Mount) :
    xspfTrack (stripUrl url p.1) p.2 = xspfTrack p.1 p.2 := rfl

/-- Removing the mounts of a URL absent from the health map leaves the
candidate list unchanged up to the stripped station records. -/
theorem healthyMounts_remove (h : HealthMap) (url : String)
    (hmiss : dictLookup h url = none) :
    ∀ sd : List Station,
      healthyMounts (removeMountsWithUrl sd url) h
        = (healthyMounts sd h).map (fun p => (stripUrl url p.1, p.2)) := by
  have hdead : isHealthy h url = false := by
    unfold isHealthy
    rw [dictGet_eq_lookup, hmiss]
    rfl
  intro sd
  induction sd with
  | nil => rfl
  | cons st l ih =>
      have hfilters :
          (st.mounts.filter (fun m => !(m.url == url))).filter
              (fun m => m.format == "mp3" && isHealthy h m.url)
            = st.mounts.filter
                (fun m => m.format == "mp3" && isHealthy h m.url) := by
        rw [List.filter_filter]
        apply List.filter_congr
        intro m hm
        cases hp : (m.format == "mp3" && isHealthy h m.url) with
        | false => simp [hp]
        | true =>
            by_cases hu : m.url = url
            · exfalso
              rw [hu, hdead] at hp
              simp at hp
            · simp [hp, hu]
      calc healthyMounts (removeMountsWithUrl (st :: l) url) h
          = ((st.mounts.filter (fun m => !(m.url == url))).filter
                (fun m => m.format == "mp3" && isHealthy h m.url)).map
              (fun m => (stripUrl url st, m))
            ++ healthyMounts (removeMountsWithUrl l url) h := by
            simp [healthyMounts, removeMountsWithUrl, List.flatMap_cons,
              stripUrl]
        _ = (st.mounts.filter
                (fun m => m.format == "mp3" && isHealthy h m.url)).map
              (fun m => (stripUrl url st, m))
            ++ (healthyMounts l h).map (fun p => (stripUrl url p.1, p.2)) := by
            rw [hfilters, ih]
        _ = (healthyMounts (st :: l) h).map
              (fun p => (stripUrl url p.1, p.2)) := by
            simp [healthyMounts, List.flatMap_cons, Function.comp_def]

/-- C1, counterexample: two URLs whose probes each take the full
five-second per-probe timeout; the claim bounds the run by the slowest
probe, five seconds, but the sequential await loop of check_streams takes
ten. -/
theorem C1_concurrent_bound_cex :
    (check_streams netDown durFive urlsTwo).2 = 10
      ∧ ¬ ((check_streams netDown durFive urlsTwo).2 ≤ 5) := by
  constructor
  · rfl
  · decide

/-- C1, amended: check_streams awaits each probe to completion before
starting the next, so the wall-clock time of a run equals the sum of the
individual probe durations, bounded by the number of URLs times the
per-probe timeout, and the returned map assigns every URL the outcome of
its probe. -/
theorem C1_sequential_time (net : String → NetOutcome) (dur : String → Nat)
    (urls : List String) (timeout : Nat)
    (hd : ∀ u ∈ urls, dur u ≤ timeout) :
    (check_streams net dur urls).2 = (urls.map dur).sum
    ∧ (check_streams net dur urls).2 ≤ urls.length * timeout
    ∧ ∀ u ∈ urls,
        dictLookup (check_streams net dur urls).1 u
          = some (probeEntry net u) := by
  have hrun : check_streams net dur urls
      = (urls.foldl (fun m u => dictSet m u (probeEntry net u)) [],
         0 + (urls.map dur).sum) := by
    unfold check_streams
    exact check_streams_foldl net dur urls [] 0
  have hsum : (urls.map dur).sum ≤ urls.length * timeout := by
    have hb : ∀ x ∈ urls.map dur, x ≤ timeout := by
      intro x hx
      obtain ⟨u, hu, rfl⟩ := List.mem_map.mp hx
      exact hd u hu
    calc (urls.map dur).sum ≤ (urls.map dur).length * timeout := by
          simpa using List.sum_le_card_nsmul (urls.map dur) timeout hb
      _ = urls.length * timeout := by rw [List.length_map]
  refine ⟨by rw [hrun]; simp, by rw [hrun]; simpa using hsum, ?_⟩
  intro u hu
  rw [hrun]
  rw [dictLookup_foldl_dictSet (probeEntry net) urls [] u]
  simp [hu]

/-- C1, witness for the amended statement at the two scenario URLs with
five-second probes and a five-second timeout. -/
theorem C1_sequential_time_wit :
    (check_streams netDown durFive urlsTwo).2 = (urlsTwo.map durFive).sum
    ∧ (check_streams netDown durFive urlsTwo).2 ≤ urlsTwo.length * 5
    ∧ ∀ u ∈ urlsTwo,
        dictLookup (check_streams netDown durFive urlsTwo).1 u
          = some (probeEntry netDown u) :=
  C1_sequential_time netDown durFive urlsTwo 5
    (by intro u _; exact Nat.le_refl 5)

/-- C2: create_m3u_playlist is the header followed by exactly two lines
per healthy mp3 candidate, the EXTINF line then the URL line, in candidate
order, so the URL lines are in bijection with the healthy candidates; on
the scenario input the output is exactly the expected document. -/
theorem C2_m3u_structure :
    (∀ (sd : List Station) (h : HealthMap),
      create_m3u_playlist sd h
        = "#EXTM3U\n" ++ strConcat ((healthyMounts sd h).map m3uEntry))
    ∧ create_m3u_playlist scenarioStations scenarioHealth
        = "#EXTM3U\n#EXTINF:-1,Alpha - 128kbps\nhttp://a/1\n" := by
  constructor
  · exact m3u_structure
  · rfl

/-- C3: create_pls_playlist numbers its blocks consecutively from 1 in
emission order over the healthy mp3 candidates, skipping unhealthy ones
without index gaps, and ends with NumberOfEntries equal to the healthy
count followed by Version=2. -/
theorem C3_pls_structure (sd : List Station) (h : HealthMap) :
    create_pls_playlist sd h
      = "[playlist]\n"
        ++ strConcat
            ((indexedFrom 1 (healthyMounts sd h)).map
              (fun q => plsEntry q.1 q.2))
        ++ ("NumberOfEntries=" ++ toString (healthyMounts sd h).length ++ "\n")
        ++ "Version=2\n" :=
  pls_structure sd h

/-- C5, counterexample: a probe whose exception renders as the empty
string, as a bare TimeoutError does in Python, yields an Unhealthy outcome
whose reason string is empty, against the non-empty requirement of the
claim. -/
theorem C5_empty_reason_cex :
    (check_stream netExcEmpty "http://a/1").2.1 = false
      ∧ (check_stream netExcEmpty "http://a/1").2.2 = HInfo.msg "" :=
  ⟨rfl, rfl⟩

/-- C5, amended: check_stream returns an outcome on every path, echoing
its URL, the outcome is Unhealthy exactly when an exception was raised,
and the reason is then exactly the string rendering of that exception,
which may be empty. -/
theorem C5_total_outcome (net : String → NetOutcome) (url : String) :
    (check_stream net url).1 = url
    ∧ ((check_stream net url).2.1 = false ↔ ∃ m, net url = NetOutcome.exc m)
    ∧ (∀ m, net url = NetOutcome.exc m →
        (check_stream net url).2.2 = HInfo.msg m) := by
  unfold check_stream
  cases hn : net url with
  | ok s => refine ⟨rfl, ?_, ?_⟩ <;> simp [hn]
  | exc m => refine ⟨rfl, ?_, ?_⟩ <;> simp [hn]

/-- C5, witness for the amended statement at the empty-message network
behaviour. -/
theorem C5_total_outcome_wit :
    (check_stream netExcEmpty "http://a/1").1 = "http://a/1"
    ∧ ((check_stream netExcEmpty "http://a/1").2.1 = false
        ↔ ∃ m, netExcEmpty "http://a/1" = NetOutcome.exc m)
    ∧ (∀ m, netExcEmpty "http://a/1" = NetOutcome.exc m →
        (check_stream netExcEmpty "http://a/1").2.2 = HInfo.msg m) :=
  C5_total_outcome netExcEmpty "http://a/1"

/-- C6, counterexample: a request that completes with HTTP status 404,
accepted at the transport layer, is reported Healthy with the status as
detail, where the claim demands Unhealthy. -/
theorem C6_status404_cex :
    check_stream netStatus404 "http://a/1"
        = ("http://a/1", true, HInfo.status 404)
      ∧ (check_stream netStatus404 "http://a/1").2.1 ≠ false :=
  ⟨rfl, by decide⟩

/-- C6, amended: check_stream reports Healthy exactly when the request and
the initial body read complete without an exception, irrespective of the
HTTP status code, which is only recorded as the detail of the outcome. -/
theorem C6_healthy_iff_read_ok (net : String → NetOutcome) (url : String) :
    ((check_stream net url).2.1 = true ↔ ∃ s, net url = NetOutcome.ok s)
    ∧ (∀ s, net url = NetOutcome.ok s →
        check_stream net url = (url, true, HInfo.status s)) := by
  unfold check_stream
  cases hn : net url with
  | ok s => constructor <;> simp [hn]
  | exc m => constructor <;> simp [hn]

/-- C6, witness for the amended statement at the 404 network behaviour. -/
theorem C6_healthy_iff_read_ok_wit :
    ((check_stream netStatus404 "http://a/1").2.1 = true
        ↔ ∃ s, netStatus404 "http://a/1" = NetOutcome.ok s)
    ∧ (∀ s, netStatus404 "http://a/1" = NetOutcome.ok s →
        check_stream netStatus404 "http://a/1"
          = ("http://a/1", true, HInfo.status s)) :=
  C6_healthy_iff_read_ok netStatus404 "http://a/1"

/-- C7, counterexample: station Beta carries a bitrate key bound to None;
the claim predicts the bare EXTINF line, but the code keys the suffix on
the presence of the key and renders Python None as the word None. -/
theorem C7_null_bitrate_cex :
    create_m3u_playlist [stationBeta] healthABoth
        = "#EXTM3U\n#EXTINF:-1,Beta - Nonekbps\nhttp://a/2\n"
      ∧ create_m3u_playlist [stationBeta] healthABoth
        ≠ "#EXTM3U\n#EXTINF:-1,Beta\nhttp://a/2\n" := by
  refine ⟨rfl, ?_⟩
  decide

/-- C7, amended: the EXTINF suffix is present exactly when the mount dict
contains the bitrate key: an absent key gives the bare station name, a key
bound to None renders as Nonekbps, and a numeric value as that number. -/
theorem C7_bitrate_key_suffix (name url : String) (h : HealthMap)
    (hh : isHealthy h url = true) :
    create_m3u_playlist [singleMountStation name url none] h
        = "#EXTM3U\n" ++ ("#EXTINF:-1," ++ name ++ "\n") ++ (url ++ "\n")
    ∧ create_m3u_playlist [singleMountStation name url (some none)] h
        = "#EXTM3U\n" ++ ("#EXTINF:-1," ++ name ++ " - Nonekbps\n")
          ++ (url ++ "\n")
    ∧ ∀ n : Nat,
        create_m3u_playlist [singleMountStation name url (some (some n))] h
          = "#EXTM3U\n"
            ++ ("#EXTINF:-1," ++ name ++ " - " ++ toString n ++ "kbps\n")
            ++ (url ++ "\n") := by
  refine ⟨?_, ?_, ?_⟩
  · simp [create_m3u_playlist, singleMountStation, hh, bitrate_info,
      String.append_assoc]
  · simp [create_m3u_playlist, singleMountStation, hh, bitrate_info,
      pyStrNat, String.append_assoc]
    rw [append_fold " - Nonekbps" "\n" " - Nonekbps\n" (url ++ "\n") rfl]
  · intro n
    simp [create_m3u_playlist, singleMountStation, hh, bitrate_info,
      pyStrNat, String.append_assoc]
    rw [append_fold "kbps" "\n" "kbps\n" (url ++ "\n") rfl]

/-- C7, witness for the amended statement at station Beta and the
all-healthy scenario map. -/
theorem C7_bitrate_key_suffix_wit :
    create_m3u_playlist [singleMountStation "Beta" "http://a/2" (some none)]
        healthABoth
      = "#EXTM3U\n" ++ ("#EXTINF:-1," ++ "Beta" ++ " - Nonekbps\n")
        ++ ("http://a/2" ++ "\n") :=
  (C7_bitrate_key_suffix "Beta" "http://a/2" healthABoth (by rfl)).2.1

set_option maxRecDepth 8192 in
/-- C4, counterexample: the scenario data encoded at two different clock
readings yields two different XSPF documents, so create_xspf_playlist is
not a function of the station data and health map alone. -/
theorem C4_purity_cex :
    create_xspf_playlist scenarioStations scenarioHealth isoA
      ≠ create_xspf_playlist scenarioStations scenarioHealth isoB := by
  decide

/-- C4, amended: create_m3u_playlist and create_pls_playlist are functions
of the station data and health map alone, but create_xspf_playlist also
reads the clock into its date element: two runs on equal data at distinct
non-empty clock readings build distinct documents. -/
theorem C4_xspf_date_dependence (sd : List Station) (h : HealthMap)
    (t1 t2 : String) (h1 : t1 ≠ "") (h2 : t2 ≠ "") (hne : t1 ≠ t2) :
    xspfTree sd h t1 ≠ xspfTree sd h t2 := by
  intro heq
  unfold xspfTree at heq
  simp [textChild, h1, h2] at heq
  exact hne heq

/-- C4, witness for the amended statement at the two sample clock
readings. -/
theorem C4_xspf_date_dependence_wit :
    xspfTree scenarioStations scenarioHealth isoA
      ≠ xspfTree scenarioStations scenarioHealth isoB :=
  C4_xspf_date_dependence scenarioStations scenarioHealth isoA isoB
    (by decide) (by decide) (by decide)

set_option maxRecDepth 8192 in
/-- C8, counterexample: for a healthy station whose genre and art are
absent the code omits the meta and image elements entirely instead of
emitting placeholder content: the single track holds exactly the five
other children, and the serialized document shows no meta or image
element. -/
theorem C8_omitted_genre_cex :
    xspfTracks [stationDelta] healthDelta
        = [XmlNode.elem "track" []
            [XmlNode.elem "location" [] [XmlNode.text "http://d/1"],
             XmlNode.elem "title" [] [XmlNode.text "Delta"],
             XmlNode.elem "creator" [] [XmlNode.text "The Indie Beat Radio"],
             XmlNode.elem "annotation" [] [],
             XmlNode.elem "info" [] []]]
      ∧ create_xspf_playlist [stationDelta] healthDelta isoA
        = "<?xml version=\"1.0\" ?>\n<playlist version=\"1\" xmlns=\"http://xspf.org/ns/0/\">\n  <title>The Indie Beat Radio Streams</title>\n  <date>2025-06-01T12:00:00+00:00</date>\n  <trackList>\n    <track>\n      <location>http://d/1</location>\n      <title>Delta</title>\n      <creator>The Indie Beat Radio</creator>\n      <annotation/>\n      <info/>\n    </track>\n  </trackList>\n</playlist>\n" :=
  ⟨rfl, rfl⟩

/-- C8, amended: the encoders succeed on a station with every optional
field missing; the description and homepage become empty annotation and
info elements, while the genre meta and image elements are omitted and the
M3U line carries no bitrate suffix. -/
theorem C8_optional_fields (name url : String) (h : HealthMap)
    (hh : isHealthy h url = true) :
    xspfTracks [singleMountStation name url none] h
        = [XmlNode.elem "track" []
            [XmlNode.elem "location" [] (textChild (some url)),
             XmlNode.elem "title" [] (textChild (some name)),
             XmlNode.elem "creator" [] [XmlNode.text "The Indie Beat Radio"],
             XmlNode.elem "annotation" [] [],
             XmlNode.elem "info" [] []]]
    ∧ create_m3u_playlist [singleMountStation name url none] h
        = "#EXTM3U\n" ++ ("#EXTINF:-1," ++ name ++ "\n") ++ (url ++ "\n") := by
  constructor
  · simp [xspfTracks, xspfTrack, singleMountStation, hh, textChild,
      pyGetStr, truthyStr]
  · simp [create_m3u_playlist, singleMountStation, hh, bitrate_info,
      String.append_assoc]

/-- C8, witness for the amended statement at station Delta. -/
theorem C8_optional_fields_wit :
    xspfTracks [singleMountStation "Delta" "http://d/1" none] healthDelta
        = [XmlNode.elem "track" []
            [XmlNode.elem "location" [] (textChild (some "http://d/1")),
             XmlNode.elem "title" [] (textChild (some "Delta")),
             XmlNode.elem "creator" [] [XmlNode.text "The Indie Beat Radio"],
             XmlNode.elem "annotation" [] [],
             XmlNode.elem "info" [] []]]
    ∧ create_m3u_playlist [singleMountStation "Delta" "http://d/1" none]
        healthDelta
        = "#EXTM3U\n" ++ ("#EXTINF:-1," ++ "Delta" ++ "\n")
          ++ ("http://d/1" ++ "\n") :=
  C8_optional_fields "Delta" "http://d/1" healthDelta (by rfl)

/-- C9: for any station data, encoding with the synthetic skipped map of
the disabled branch gives exactly the documents obtained from any health
map whose probes all reported healthy on the stream URLs. -/
theorem C9_skip_equiv (sd : List Station) (h : HealthMap) (now : String)
    (hall : ∀ u ∈ stream_urls sd, isHealthy h u = true) :
    create_xspf_playlist sd (skippedHealthMap sd) now
        = create_xspf_playlist sd h now
    ∧ create_m3u_playlist sd (skippedHealthMap sd) = create_m3u_playlist sd h
    ∧ create_pls_playlist sd (skippedHealthMap sd)
        = create_pls_playlist sd h := by
  have hagree : ∀ u ∈ stream_urls sd,
      isHealthy (skippedHealthMap sd) u = isHealthy h u := by
    intro u hu
    rw [skipped_isHealthy sd u hu, hall u hu]
  have hmounts := healthyMounts_congr (skippedHealthMap sd) h sd hagree
  refine ⟨?_, ?_, ?_⟩
  · have htr : xspfTracks sd (skippedHealthMap sd) = xspfTracks sd h := by
      rw [xspfTracks_structure, xspfTracks_structure, hmounts]
    unfold create_xspf_playlist xspfTree
    rw [htr]
  · rw [m3u_structure, m3u_structure, hmounts]
  · rw [pls_structure, pls_structure, hmounts]

/-- C9, witness at the scenario stations against the all-healthy map. -/
theorem C9_skip_equiv_wit :
    create_xspf_playlist scenarioStations (skippedHealthMap scenarioStations)
        isoA
      = create_xspf_playlist scenarioStations healthABoth isoA
    ∧ create_m3u_playlist scenarioStations (skippedHealthMap scenarioStations)
      = create_m3u_playlist scenarioStations healthABoth
    ∧ create_pls_playlist scenarioStations (skippedHealthMap scenarioStations)
      = create_pls_playlist scenarioStations healthABoth :=
  C9_skip_equiv scenarioStations healthABoth isoA (by decide)

/-- C10: a mount whose URL is not a key of the health map is silently
excluded by all three encoders: deleting such mounts from the station data
leaves every document unchanged, and the total Lean encoders never fail. -/
theorem C10_missing_url_excluded (sd : List Station) (h : HealthMap)
    (url now : String) (hmiss : dictLookup h url = none) :
    create_xspf_playlist (removeMountsWithUrl sd url) h now
        = create_xspf_playlist sd h now
    ∧ create_m3u_playlist (removeMountsWithUrl sd url) h
        = create_m3u_playlist sd h
    ∧ create_pls_playlist (removeMountsWithUrl sd url) h
        = create_pls_playlist sd h := by
  have hmounts := healthyMounts_remove h url hmiss sd
  refine ⟨?_, ?_, ?_⟩
  · have htr : xspfTracks (removeMountsWithUrl sd url) h = xspfTracks sd h := by
      rw [xspfTracks_structure, xspfTracks_structure, hmounts, List.map_map]
      rfl
    unfold create_xspf_playlist xspfTree
    rw [htr]
  · rw [m3u_structure, m3u_structure, hmounts, List.map_map]
    have hfun : (m3uEntry ∘ fun p => (stripUrl url p.1, p.2)) = m3uEntry := by
      funext p
      exact m3uEntry_strip url p
    rw [hfun]
  · rw [pls_structure, pls_structure, hmounts, indexedFrom_map,
      List.map_map, List.length_map]
    have hfun : ((fun q : Nat × Station × Mount => plsEntry q.1 q.2)
          ∘ fun q : Nat × Station × Mount => (q.1, stripUrl url q.2.1, q.2.2))
        = fun q : Nat × Station × Mount => plsEntry q.1 q.2 := by
      funext q
      exact plsEntry_strip url q.1 q.2
    rw [hfun]

/-- C10, witness at the scenario stations with the second URL missing from
the map. -/
theorem C10_missing_url_excluded_wit :
    create_xspf_playlist (removeMountsWithUrl scenarioStations "http://a/2")
        healthAFirst isoA
      = create_xspf_playlist scenarioStations healthAFirst isoA
    ∧ create_m3u_playlist (removeMountsWithUrl scenarioStations "http://a/2")
        healthAFirst
      = create_m3u_playlist scenarioStations healthAFirst
    ∧ create_pls_playlist (removeMountsWithUrl scenarioStations "http://a/2")
        healthAFirst
      = create_pls_playlist scenarioStations healthAFirst :=
  C10_missing_url_excluded scenarioStations healthAFirst "http://a/2" isoA
    (by rfl)

end TIBR
